import Mathlib

/-!
Shallow embedding of the pipeline endpoints of
`services/orchest-api/app/app/apis/namespace_pipelines.py`, together with a
model of the `TwoPhaseExecutor` coordinator they rely on.  The coordinator
(`_orchest.internals.two_phase_executor`) and the two delegated Operations
(`AbortPipelineRun`, `StopInteractiveSession`) live outside this tree, so they
are modelled from the spec; everything in `namespace_pipelines.py` is embedded
from the source.
-/

/-- Environment variables of a pipeline: a string-to-string mapping. -/
abbrev EnvVars := List (String × String)

/-- Row of the pipelines table (`models.Pipeline`). -/
structure PipelineRow where
  project_uuid : String
  uuid : String
  env_variables : EnvVars
deriving DecidableEq, Repr

/-- Row of `models.InteractivePipelineRun`. -/
structure InteractivePipelineRun where
  uuid : String
  project_uuid : String
  pipeline_uuid : String
  status : String
deriving DecidableEq, Repr

/-- Row of the interactive-sessions table read by `StopInteractiveSession`. -/
structure InteractiveSession where
  project_uuid : String
  pipeline_uuid : String
deriving DecidableEq, Repr

/-- Modelled from the spec: the persistence collaborator (the relational
store).  `failDeleteRuns` is a fault model of the store: deleting a run whose
uuid is listed raises a store error, modelling the domain errors a
transactional step may raise. -/
structure DB where
  pipelines : List PipelineRow
  interactive_runs : List InteractivePipelineRun
  sessions : List InteractiveSession
  failDeleteRuns : List String
deriving DecidableEq, Repr

/-- Errors are carried as their message text (Python `str(e)`). -/
abbrev Err := String

/-- Collateral steps registered with the coordinator during the transactional
phase.  `deletePipelineNoop` is `DeletePipeline._collateral`, whose body is
`pass`. -/
inductive Collateral where
  | abortRun (run_uuid : String)
  | stopSession (project_uuid pipeline_uuid : String)
  | deletePipelineNoop
deriving DecidableEq, Repr

/-- Externally observable actions performed by collateral steps. -/
inductive ExternalAction where
  | stopExecution (run_uuid : String)
  | shutdownSession (project_uuid pipeline_uuid : String)
deriving DecidableEq, Repr

/-- Trace of a transactional phase: which sub-Operations were delegated to
through the coordinator and which run rows were deleted, in program order. -/
inductive Event where
  | abortRunDelegated (run_uuid : String)
  | runDeleted (run_uuid : String)
  | stopSessionDelegated (project_uuid pipeline_uuid : String)
deriving DecidableEq, Repr

/-- Unit-of-work lifecycle events of one coordinator scope. -/
inductive TxnEvent where
  | commit
  | rollback
deriving DecidableEq, Repr

/-- Modelled from the spec: the `TwoPhaseExecutor` coordinator during the
transactional phase.  It binds one unit of work (`db` is the
transaction-local store state), an append-only collateral queue in
registration order, and the trace of delegations made through it. -/
structure TwoPhaseExecutor where
  db : DB
  queue : List Collateral
  events : List Event
deriving DecidableEq, Repr

/-- Modelled from the spec: opening a coordinator scope begins a fresh unit of
work over the durable store with an empty collateral queue. -/
def TwoPhaseExecutor.init (db : DB) : TwoPhaseExecutor :=
  { db := db, queue := [], events := [] }

/-- Modelled from the spec: running one collateral step yields its external
actions.  Abort-run stops the underlying external execution; stop-session
shuts the session down; `DeletePipeline._collateral` is `pass` and does
nothing. -/
def runCollateral : Collateral → List ExternalAction
  | .abortRun u => [.stopExecution u]
  | .stopSession p q => [.shutdownSession p q]
  | .deletePipelineNoop => []

/-- Modelled from the spec: `AbortPipelineRun(tpe).transaction(run_uuid)`
(defined in `app.apis.namespace_runs`, outside this tree).  Its transactional
step marks the execution aborted; it registers a collateral step that stops
the underlying external execution. -/
def AbortPipelineRun (run_uuid : String) (tpe : TwoPhaseExecutor) : TwoPhaseExecutor :=
  { db := { tpe.db with
      interactive_runs := tpe.db.interactive_runs.map fun r =>
        if r.uuid == run_uuid then { r with status := "ABORTED" } else r }
    queue := tpe.queue ++ [.abortRun run_uuid]
    events := tpe.events ++ [.abortRunDelegated run_uuid] }

/-- Store primitive `db.session.delete(run)` under the fault model: deleting a
run listed in `failDeleteRuns` raises a store error; otherwise the row (and,
by cascade, its dependent rows, which are not modelled individually) is
removed. -/
def dbDeleteRun (run_uuid : String) (tpe : TwoPhaseExecutor) : Except Err TwoPhaseExecutor :=
  if tpe.db.failDeleteRuns.contains run_uuid then
    .error ("delete of pipeline run " ++ run_uuid ++ " failed")
  else
    .ok { tpe with
      db := { tpe.db with
        interactive_runs := tpe.db.interactive_runs.filter fun r => !(r.uuid == run_uuid) }
      events := tpe.events ++ [.runDeleted run_uuid] }

/-- Modelled from the spec:
`StopInteractiveSession(tpe).transaction(project_uuid, pipeline_uuid)`
(defined in `app.apis.namespace_sessions`, outside this tree).  The delegation
is recorded unconditionally; if an interactive session for the pipeline
exists, its row is removed and a session-stop collateral step is registered;
otherwise nothing further happens. -/
def StopInteractiveSession (project_uuid pipeline_uuid : String)
    (tpe : TwoPhaseExecutor) : TwoPhaseExecutor :=
  let tpe' : TwoPhaseExecutor := { tpe with
    events := tpe.events ++ [Event.stopSessionDelegated project_uuid pipeline_uuid] }
  if tpe'.db.sessions.any
      (fun s => s.project_uuid == project_uuid && s.pipeline_uuid == pipeline_uuid) then
    { tpe' with
      db := { tpe'.db with sessions := tpe'.db.sessions.filter fun s =>
        !(s.project_uuid == project_uuid && s.pipeline_uuid == pipeline_uuid) }
      queue := tpe'.queue ++ [Collateral.stopSession project_uuid pipeline_uuid] }
  else tpe'

/-- Selection made by `DeletePipeline._transaction`: the interactive runs of
the pipeline whose status is PENDING or STARTED, materialised before the
loop (`.all()`). -/
def selectedRuns (project_uuid pipeline_uuid : String) (db : DB) :
    List InteractivePipelineRun :=
  db.interactive_runs.filter fun r =>
    r.project_uuid == project_uuid && r.pipeline_uuid == pipeline_uuid &&
      (r.status == "PENDING" || r.status == "STARTED")

/-- Loop body of `DeletePipeline._transaction`: for each selected interactive
run, delegate to `AbortPipelineRun` through the same executor, then delete the
run row with `db.session.delete(run)`. -/
def deleteRunsLoop (runs : List InteractivePipelineRun) (tpe : TwoPhaseExecutor) :
    Except Err TwoPhaseExecutor :=
  match runs with
  | [] => .ok tpe
  | run :: rest =>
    match dbDeleteRun run.uuid (AbortPipelineRun run.uuid tpe) with
    | .error e => .error e
    | .ok tpe' => deleteRunsLoop rest tpe'

/-- Embeds `DeletePipeline._transaction`: abort and delete each non-terminal
interactive run of the pipeline, then delegate to `StopInteractiveSession`.
The pipeline row itself is not touched. -/
def DeletePipeline_transaction (project_uuid pipeline_uuid : String)
    (tpe : TwoPhaseExecutor) : Except Err TwoPhaseExecutor :=
  match deleteRunsLoop (selectedRuns project_uuid pipeline_uuid tpe.db) tpe with
  | .error e => .error e
  | .ok tpe' => .ok (StopInteractiveSession project_uuid pipeline_uuid tpe')

/-- Embeds `DeletePipeline(tpe).transaction(project_uuid, pipeline_uuid)`: run
the transactional step, then register the operation's own collateral step
(`_collateral`, whose body is `pass`) with the coordinator — after the
collateral of the delegated sub-Operations, following the spec's registration
order for nested Operations. -/
def DeletePipeline (project_uuid pipeline_uuid : String)
    (tpe : TwoPhaseExecutor) : Except Err TwoPhaseExecutor :=
  match DeletePipeline_transaction project_uuid pipeline_uuid tpe with
  | .error e => .error e
  | .ok tpe' => .ok { tpe' with queue := tpe'.queue ++ [.deletePipelineNoop] }

/-- Outcome of one coordinator scope: durable store state, unit-of-work
events, external actions that ran, and the error the caller observes, if
any. -/
structure ScopeOutcome where
  db : DB
  txn : List TxnEvent
  effects : List ExternalAction
  error : Option Err
deriving DecidableEq, Repr

/-- Modelled from the spec: closing a `TwoPhaseExecutor` scope.  If the
transactional phase raised, the unit of work is rolled back, zero collateral
steps run and the original error propagates to the caller; otherwise the unit
of work is committed once and the collateral queue is drained in registration
order. -/
def runScope (body : TwoPhaseExecutor → Except Err TwoPhaseExecutor) (db : DB) :
    ScopeOutcome :=
  match body (TwoPhaseExecutor.init db) with
  | .error e => { db := db, txn := [.rollback], effects := [], error := some e }
  | .ok tpe =>
    { db := tpe.db, txn := [.commit],
      effects := tpe.queue.flatMap runCollateral, error := none }

/-- Modelled from the spec: a sequence of Operations run through one
coordinator, each delegated through the executor in turn, stopping at the
first transactional failure. -/
def runOps (ops : List (TwoPhaseExecutor → Except Err TwoPhaseExecutor))
    (tpe : TwoPhaseExecutor) : Except Err TwoPhaseExecutor :=
  match ops with
  | [] => .ok tpe
  | op :: rest =>
    match op tpe with
    | .error e => .error e
    | .ok tpe' => runOps rest tpe'

/-- HTTP response: the `message` field of the JSON body and the status code. -/
structure HttpResponse where
  message : String
  status : Nat
deriving DecidableEq, Repr

/-- Outcome of one HTTP request: durable store state, unit-of-work events,
external actions performed, and the response sent to the client. -/
structure RequestOutcome where
  db : DB
  txn : List TxnEvent
  effects : List ExternalAction
  response : HttpResponse
deriving DecidableEq, Repr

/-- Embeds `Pipeline.delete`: run `DeletePipeline` inside a fresh
`TwoPhaseExecutor` scope; on any exception return its text as the message
with status 500, otherwise the success message with status 200. -/
def Pipeline_delete (project_uuid pipeline_uuid : String) (db : DB) :
    RequestOutcome :=
  let o := runScope (DeletePipeline project_uuid pipeline_uuid) db
  match o.error with
  | some e =>
    { db := o.db, txn := o.txn, effects := o.effects,
      response := { message := e, status := 500 } }
  | none =>
    { db := o.db, txn := o.txn, effects := o.effects,
      response := { message := "Pipeline deletion was successful.", status := 200 } }

/-- JSON body of a create-pipeline request; `env_variables = none` models the
key being absent from the JSON object. -/
structure CreatePipelineRequest where
  project_uuid : String
  uuid : String
  env_variables : Option EnvVars
deriving DecidableEq, Repr

/-- Embeds `PipelineList.post`: default `env_variables` to the empty mapping
when the key is absent, store the new pipeline row and commit. -/
def PipelineList_post (req : CreatePipelineRequest) (db : DB) :
    DB × HttpResponse :=
  let env := req.env_variables.getD []
  ({ db with pipelines := db.pipelines ++
      [{ project_uuid := req.project_uuid, uuid := req.uuid, env_variables := env }] },
   { message := "", status := 201 })

/-- JSON body of an update-pipeline request; only the keys present in the JSON
are written, modelled by `Option` fields. -/
structure PipelineUpdateRequest where
  env_variables : Option EnvVars
deriving DecidableEq, Repr

/-- Applies `query.update(request.get_json())` to one matching row: overwrite
exactly the columns present in the request. -/
def applyUpdate (upd : PipelineUpdateRequest) (row : PipelineRow) : PipelineRow :=
  { row with env_variables := upd.env_variables.getD row.env_variables }

/-- Embeds `Pipeline.put`: update every row matching the project and pipeline
uuid (possibly zero rows), commit, and return the success message with
status 200. -/
def Pipeline_put (project_uuid pipeline_uuid : String)
    (upd : PipelineUpdateRequest) (db : DB) :
    DB × List TxnEvent × HttpResponse :=
  ({ db with pipelines := db.pipelines.map fun row =>
      if row.project_uuid == project_uuid && row.uuid == pipeline_uuid then
        applyUpdate upd row
      else row },
   [.commit],
   { message := "Pipeline was updated successfully.", status := 200 })

/-! Helper lemmas about the transactional phase. -/

theorem dbDeleteRun_ok (u : String) (tpe tpe' : TwoPhaseExecutor)
    (h : dbDeleteRun u tpe = Except.ok tpe') :
    tpe'.db.pipelines = tpe.db.pipelines ∧
    tpe'.db.sessions = tpe.db.sessions ∧
    tpe'.queue = tpe.queue ∧
    tpe'.events = tpe.events ++ [Event.runDeleted u] ∧
    tpe'.db.interactive_runs = tpe.db.interactive_runs.filter fun r => !(r.uuid == u) := by
  unfold dbDeleteRun at h
  split at h
  · exact absurd h (by simp)
  · simp only [Except.ok.injEq] at h
    subst h
    simp

theorem deleteRunsLoop_ok_spec (runs : List InteractivePipelineRun)
    (tpe tpe' : TwoPhaseExecutor) (h : deleteRunsLoop runs tpe = Except.ok tpe') :
    tpe'.events = tpe.events ++
      runs.flatMap (fun r => [Event.abortRunDelegated r.uuid, Event.runDeleted r.uuid]) ∧
    tpe'.queue = tpe.queue ++ runs.map (fun r => Collateral.abortRun r.uuid) ∧
    tpe'.db.pipelines = tpe.db.pipelines ∧
    tpe'.db.sessions = tpe.db.sessions ∧
    (∀ r, r ∈ tpe.db.interactive_runs → (∀ x ∈ runs, x.uuid ≠ r.uuid) →
      r ∈ tpe'.db.interactive_runs) := by
  induction runs generalizing tpe with
  | nil =>
    unfold deleteRunsLoop at h
    simp only [Except.ok.injEq] at h
    subst h
    simp
  | cons run rest ih =>
    unfold deleteRunsLoop at h
    cases hd : dbDeleteRun run.uuid (AbortPipelineRun run.uuid tpe) with
    | error e => rw [hd] at h; exact absurd h (by simp)
    | ok tpe₁ =>
      rw [hd] at h
      obtain ⟨he, hq, hp, hs, hr⟩ := ih tpe₁ h
      obtain ⟨dp, ds, dq, de, dr⟩ := dbDeleteRun_ok run.uuid _ tpe₁ hd
      refine ⟨?_, ?_, ?_, ?_, ?_⟩
      · rw [he, de]
        simp [AbortPipelineRun, List.flatMap_cons, List.append_assoc]
      · rw [hq, dq]
        simp [AbortPipelineRun, List.append_assoc]
      · rw [hp, dp]; simp [AbortPipelineRun]
      · rw [hs, ds]; simp [AbortPipelineRun]
      · intro r hrmem hne
        have hne_run : run.uuid ≠ r.uuid := hne run (by simp)
        have hmem₁ : r ∈ tpe₁.db.interactive_runs := by
          rw [dr]
          simp only [AbortPipelineRun, List.mem_filter, List.mem_map]
          refine ⟨⟨r, hrmem, ?_⟩, ?_⟩
          · have : (r.uuid == run.uuid) = false := by
              simp [beq_iff_eq]
              exact fun hc => hne_run hc.symm
            simp [this]
          · have : (r.uuid == run.uuid) = false := by
              simp [beq_iff_eq]
              exact fun hc => hne_run hc.symm
            simp [this]
        exact hr r hmem₁ (fun x hx => hne x (by simp [hx]))

theorem stopInteractiveSession_spec (p q : String) (tpe : TwoPhaseExecutor) :
    (StopInteractiveSession p q tpe).events =
      tpe.events ++ [Event.stopSessionDelegated p q] ∧
    (StopInteractiveSession p q tpe).db.pipelines = tpe.db.pipelines ∧
    (StopInteractiveSession p q tpe).db.interactive_runs = tpe.db.interactive_runs ∧
    (StopInteractiveSession p q tpe).queue = tpe.queue ++
      (if tpe.db.sessions.any
          (fun s => s.project_uuid == p && s.pipeline_uuid == q) then
        [Collateral.stopSession p q]
      else []) := by
  by_cases hc : tpe.db.sessions.any
      (fun s => s.project_uuid == p && s.pipeline_uuid == q) = true
  · simp [StopInteractiveSession, hc]
  · simp [StopInteractiveSession, hc]

theorem deletePipeline_ok_spec (p q : String) (db : DB) (tpe' : TwoPhaseExecutor)
    (h : DeletePipeline p q (TwoPhaseExecutor.init db) = Except.ok tpe') :
    tpe'.events = (selectedRuns p q db).flatMap
        (fun r => [Event.abortRunDelegated r.uuid, Event.runDeleted r.uuid]) ++
      [Event.stopSessionDelegated p q] ∧
    tpe'.queue = (selectedRuns p q db).map (fun r => Collateral.abortRun r.uuid) ++
      (if db.sessions.any (fun s => s.project_uuid == p && s.pipeline_uuid == q) then
        [Collateral.stopSession p q]
      else []) ++ [Collateral.deletePipelineNoop] ∧
    tpe'.db.pipelines = db.pipelines ∧
    (∀ r, r ∈ db.interactive_runs → (∀ x ∈ selectedRuns p q db, x.uuid ≠ r.uuid) →
      r ∈ tpe'.db.interactive_runs) := by
  unfold DeletePipeline DeletePipeline_transaction at h
  cases hl : deleteRunsLoop (selectedRuns p q (TwoPhaseExecutor.init db).db)
      (TwoPhaseExecutor.init db) with
  | error e => rw [hl] at h; exact absurd h (by simp)
  | ok tpe₁ =>
    rw [hl] at h
    simp only [Except.ok.injEq] at h
    subst h
    obtain ⟨he, hq, hp, hs, hr⟩ := deleteRunsLoop_ok_spec _ _ _ hl
    obtain ⟨se, sp, sr, sq⟩ := stopInteractiveSession_spec p q tpe₁
    have hinit : (TwoPhaseExecutor.init db).db = db := rfl
    rw [hinit] at he hq hp hs hr
    refine ⟨?_, ?_, ?_, ?_⟩
    · simp [se, he, TwoPhaseExecutor.init]
    · simp only [sq, hq, hs, TwoPhaseExecutor.init]
      simp
    · simp [sp, hp]
    · intro r hrmem hne
      have := hr r (by simpa [TwoPhaseExecutor.init] using hrmem) hne
      simpa [sr] using this

/-! Concrete scenarios used as witnesses and counterexamples. -/

/-- Scenario A store: one pipeline with two non-terminal interactive runs and
an active interactive session; no store faults. -/
def dbA : DB :=
  { pipelines := [{ project_uuid := "p", uuid := "pl", env_variables := [] }],
    interactive_runs :=
      [{ uuid := "r1", project_uuid := "p", pipeline_uuid := "pl", status := "PENDING" },
       { uuid := "r2", project_uuid := "p", pipeline_uuid := "pl", status := "STARTED" }],
    sessions := [{ project_uuid := "p", pipeline_uuid := "pl" }],
    failDeleteRuns := [] }

/-- Scenario B store: as scenario A, but deleting the second run raises a
store error. -/
def dbB : DB := { dbA with failDeleteRuns := ["r2"] }

/-- Store state of scenario A after both runs and the session are removed. -/
def dbADeleted : DB :=
  { pipelines := [{ project_uuid := "p", uuid := "pl", env_variables := [] }],
    interactive_runs := [], sessions := [], failDeleteRuns := [] }

/-- Executor state after the transactional phase of delete-pipeline on
scenario A. -/
def tpeA : TwoPhaseExecutor :=
  { db := dbADeleted,
    queue := [Collateral.abortRun "r1", Collateral.abortRun "r2",
      Collateral.stopSession "p" "pl", Collateral.deletePipelineNoop],
    events := [Event.abortRunDelegated "r1", Event.runDeleted "r1",
      Event.abortRunDelegated "r2", Event.runDeleted "r2",
      Event.stopSessionDelegated "p" "pl"] }

/-- Store with one pipeline and no interactive session for it. -/
def db5 : DB :=
  { pipelines := [{ project_uuid := "p", uuid := "pl", env_variables := [] }],
    interactive_runs := [], sessions := [], failDeleteRuns := [] }

/-- Store with one terminal (SUCCESS) and one pending run of the pipeline. -/
def db9 : DB :=
  { pipelines := [{ project_uuid := "p", uuid := "pl", env_variables := [] }],
    interactive_runs :=
      [{ uuid := "r1", project_uuid := "p", pipeline_uuid := "pl", status := "SUCCESS" },
       { uuid := "r2", project_uuid := "p", pipeline_uuid := "pl", status := "PENDING" }],
    sessions := [], failDeleteRuns := [] }

/-- Empty store. -/
def dbEmpty : DB :=
  { pipelines := [], interactive_runs := [], sessions := [], failDeleteRuns := [] }

/-! Claim theorems. -/

/-- C1: for every sequence of Operations run through one TwoPhaseExecutor
scope, if every transactional step succeeds, the transaction commits exactly
once and every registered collateral effect runs exactly once, in registration
order (the drained effect list is the concatenation, in queue order, of each
registered collateral step's actions). -/
theorem twoPhase_success_commits_once_and_drains_queue
    (ops : List (TwoPhaseExecutor → Except Err TwoPhaseExecutor)) (db : DB)
    (tpe : TwoPhaseExecutor)
    (h : runOps ops (TwoPhaseExecutor.init db) = Except.ok tpe) :
    runScope (runOps ops) db =
      { db := tpe.db, txn := [TxnEvent.commit],
        effects := tpe.queue.flatMap runCollateral, error := none } := by
  unfold runScope
  rw [h]

/-- Witness for C1: scenario A commits once and runs the three registered
collateral effects in registration order. -/
theorem twoPhase_success_commits_once_and_drains_queue_witness :
    runScope (runOps [DeletePipeline "p" "pl"]) dbA =
      { db := tpeA.db, txn := [TxnEvent.commit],
        effects := tpeA.queue.flatMap runCollateral, error := none } :=
  twoPhase_success_commits_once_and_drains_queue [DeletePipeline "p" "pl"] dbA tpeA
    rfl

/-- C2: if any transactional step of the delete-pipeline scope (including a
nested one) raises, the transaction is rolled back, zero collateral effects
run, and the original error is what the caller observes. -/
theorem deletePipeline_transactional_failure_rolls_back
    (p q : String) (db : DB) (e : Err)
    (h : DeletePipeline p q (TwoPhaseExecutor.init db) = Except.error e) :
    Pipeline_delete p q db =
      { db := db, txn := [TxnEvent.rollback], effects := [],
        response := { message := e, status := 500 } } := by
  unfold Pipeline_delete runScope
  rw [h]

/-- Witness for C2: scenario B (the delete of the second run raises) rolls back
both deletions and the session stop, runs zero collateral effects and
surfaces the store error. -/
theorem deletePipeline_transactional_failure_rolls_back_witness :
    Pipeline_delete "p" "pl" dbB =
      { db := dbB, txn := [TxnEvent.rollback], effects := [],
        response := { message := "delete of pipeline run r2 failed", status := 500 } } :=
  deletePipeline_transactional_failure_rolls_back "p" "pl" dbB
    "delete of pipeline run r2 failed" rfl

/-- C3: the delete-pipeline transactional step selects exactly the interactive
runs of the pipeline whose status is PENDING or STARTED and, for each in turn,
first delegates to the abort-run Operation through the same coordinator and
then deletes that execution record, before delegating to the stop-session
Operation. -/
theorem deletePipeline_trace (p q : String) (db : DB) (tpe' : TwoPhaseExecutor)
    (h : DeletePipeline p q (TwoPhaseExecutor.init db) = Except.ok tpe') :
    tpe'.events = (selectedRuns p q db).flatMap
        (fun r => [Event.abortRunDelegated r.uuid, Event.runDeleted r.uuid]) ++
      [Event.stopSessionDelegated p q] :=
  (deletePipeline_ok_spec p q db tpe' h).1

/-- Witness for C3: on scenario A the trace is abort r1, delete r1, abort r2,
delete r2, then the stop-session delegation. -/
theorem deletePipeline_trace_witness :
    tpeA.events = (selectedRuns "p" "pl" dbA).flatMap
        (fun r => [Event.abortRunDelegated r.uuid, Event.runDeleted r.uuid]) ++
      [Event.stopSessionDelegated "p" "pl"] :=
  deletePipeline_trace "p" "pl" dbA tpeA rfl

/-- C4: the delete-pipeline endpoint never deletes the pipeline row: the
pipelines table is unchanged by the request, on every path, whatever runs or
sessions were removed. -/
theorem deletePipeline_preserves_pipeline_rows (p q : String) (db : DB) :
    (Pipeline_delete p q db).db.pipelines = db.pipelines := by
  unfold Pipeline_delete runScope
  cases hd : DeletePipeline p q (TwoPhaseExecutor.init db) with
  | error e => simp
  | ok tpe' => simp [(deletePipeline_ok_spec p q db tpe' hd).2.2.1]

/-- C5 counterexample: with no interactive session for the pipeline, the
delete-pipeline transactional step still delegates to the stop-session
Operation — the delegation appears in the trace of the successful
transactional phase even though `db5.sessions` is empty. -/
theorem stopSession_delegated_without_session :
    db5.sessions = [] ∧
    DeletePipeline "p" "pl" (TwoPhaseExecutor.init db5) =
      Except.ok
        { db := db5, queue := [Collateral.deletePipelineNoop],
          events := [Event.stopSessionDelegated "p" "pl"] } :=
  ⟨rfl, rfl⟩

/-- C5 amended: the delete-pipeline transactional step always delegates to the
stop-session Operation, whether or not an interactive session exists; the
session-stop itself (row removal and collateral registration) happens only if
a session for the pipeline exists, a check made inside the stop-session
Operation. -/
theorem deletePipeline_always_delegates_stopSession (p q : String) (db : DB)
    (tpe' : TwoPhaseExecutor)
    (h : DeletePipeline p q (TwoPhaseExecutor.init db) = Except.ok tpe') :
    Event.stopSessionDelegated p q ∈ tpe'.events ∧
    (Collateral.stopSession p q ∈ tpe'.queue ↔
      db.sessions.any (fun s => s.project_uuid == p && s.pipeline_uuid == q) = true) := by
  obtain ⟨he, hq, -, -⟩ := deletePipeline_ok_spec p q db tpe' h
  constructor
  · rw [he]; simp
  · rw [hq]
    by_cases hc : db.sessions.any
        (fun s => s.project_uuid == p && s.pipeline_uuid == q) = true
    · simp [hc]
    · simp [hc]

/-- Witness for the amended C5: on scenario A (a session exists) the
delegation is in the trace and the session-stop collateral is registered. -/
theorem deletePipeline_always_delegates_stopSession_witness :
    Event.stopSessionDelegated "p" "pl" ∈ tpeA.events ∧
    (Collateral.stopSession "p" "pl" ∈ tpeA.queue ↔
      dbA.sessions.any
        (fun s => s.project_uuid == "p" && s.pipeline_uuid == "pl") = true) :=
  deletePipeline_always_delegates_stopSession "p" "pl" dbA tpeA rfl

/-- C6 counterexample: an unexpected store failure inside the delete-pipeline
scope is returned to the end user verbatim: the raised error's text is exactly
the message of the 500 response body. -/
theorem delete_error_message_is_verbatim :
    DeletePipeline "p" "pl" (TwoPhaseExecutor.init dbB) =
      Except.error "delete of pipeline run r2 failed" ∧
    (Pipeline_delete "p" "pl" dbB).response =
      { message := "delete of pipeline run r2 failed", status := 500 } :=
  ⟨rfl, rfl⟩

/-- C6 amended: for every failure raised inside the delete-pipeline scope,
unexpected or not, the endpoint returns the internal error text verbatim as
the response message, with status 500. -/
theorem delete_failure_returns_error_text_verbatim (p q : String) (db : DB)
    (e : Err) (h : DeletePipeline p q (TwoPhaseExecutor.init db) = Except.error e) :
    (Pipeline_delete p q db).response = { message := e, status := 500 } := by
  unfold Pipeline_delete runScope
  rw [h]

/-- Witness for the amended C6: the scenario B store error is echoed verbatim
in the response body. -/
theorem delete_failure_returns_error_text_verbatim_witness :
    (Pipeline_delete "p" "pl" dbB).response =
      { message := "delete of pipeline run r2 failed", status := 500 } :=
  delete_failure_returns_error_text_verbatim "p" "pl" dbB
    "delete of pipeline run r2 failed" rfl

/-- C7: the delete-pipeline Operation's own collateral step performs no
action: its queue entry is the final no-op, whose collateral produces no
external action, and every other registered collateral step belongs to a
delegated abort-run or stop-session Operation. -/
theorem deletePipeline_own_collateral_is_noop (p q : String) (db : DB)
    (tpe' : TwoPhaseExecutor)
    (h : DeletePipeline p q (TwoPhaseExecutor.init db) = Except.ok tpe') :
    runCollateral Collateral.deletePipelineNoop = [] ∧
    ∃ pre, tpe'.queue = pre ++ [Collateral.deletePipelineNoop] ∧
      ∀ c ∈ pre, (∃ u, c = Collateral.abortRun u) ∨
        (∃ a b, c = Collateral.stopSession a b) := by
  obtain ⟨-, hq, -, -⟩ := deletePipeline_ok_spec p q db tpe' h
  refine ⟨rfl, _, hq, ?_⟩
  intro c hc
  rcases List.mem_append.mp hc with hc | hc
  · rcases List.mem_map.mp hc with ⟨r, -, rfl⟩
    exact Or.inl ⟨r.uuid, rfl⟩
  · right
    split at hc
    · simp only [List.mem_singleton] at hc
      exact ⟨p, q, hc⟩
    · simp at hc

/-- Witness for C7: on scenario A the queue is the two abort-run collaterals,
the session-stop collateral and the final no-op. -/
theorem deletePipeline_own_collateral_is_noop_witness :
    runCollateral Collateral.deletePipelineNoop = [] ∧
    ∃ pre, tpeA.queue = pre ++ [Collateral.deletePipelineNoop] ∧
      ∀ c ∈ pre, (∃ u, c = Collateral.abortRun u) ∨
        (∃ a b, c = Collateral.stopSession a b) :=
  deletePipeline_own_collateral_is_noop "p" "pl" dbA tpeA rfl

/-- C8: create-pipeline stores the empty mapping when `env_variables` is
absent from the JSON body, and the given value unchanged when the key is
present. -/
theorem post_env_variables_defaulting (req : CreatePipelineRequest) (db : DB) :
    (req.env_variables = none →
      (PipelineList_post req db).1.pipelines = db.pipelines ++
        [{ project_uuid := req.project_uuid, uuid := req.uuid,
           env_variables := [] }]) ∧
    (∀ v, req.env_variables = some v →
      (PipelineList_post req db).1.pipelines = db.pipelines ++
        [{ project_uuid := req.project_uuid, uuid := req.uuid,
           env_variables := v }]) := by
  constructor
  · intro h; simp [PipelineList_post, h]
  · intro v h; simp [PipelineList_post, h]

/-- Witness for C8: a request without the `env_variables` key stores the
empty mapping. -/
theorem post_env_variables_defaulting_witness :
    (PipelineList_post
      { project_uuid := "p", uuid := "pl", env_variables := none }
      dbEmpty).1.pipelines =
      dbEmpty.pipelines ++
        [{ project_uuid := "p", uuid := "pl", env_variables := [] }] :=
  (post_env_variables_defaulting
    { project_uuid := "p", uuid := "pl", env_variables := none } dbEmpty).1 rfl

/-- C9: a run of the pipeline whose status is neither PENDING nor STARTED is
left in the store unchanged by the delete-pipeline request (run uuids are
assumed pairwise distinct, being a primary key). -/
theorem deletePipeline_preserves_terminal_runs (p q : String) (db : DB)
    (r : InteractivePipelineRun)
    (hnd : (db.interactive_runs.map InteractivePipelineRun.uuid).Nodup)
    (hr : r ∈ db.interactive_runs)
    (hp : r.status ≠ "PENDING") (hs : r.status ≠ "STARTED") :
    r ∈ (Pipeline_delete p q db).db.interactive_runs := by
  have hsel : ∀ x ∈ selectedRuns p q db, x.uuid ≠ r.uuid := by
    intro x hx hxe
    have hx' := hx
    simp only [selectedRuns, List.mem_filter] at hx'
    obtain ⟨hxmem, hcond⟩ := hx'
    have hxr : x = r := List.inj_on_of_nodup_map hnd hxmem hr hxe
    subst hxr
    simp only [Bool.and_eq_true, Bool.or_eq_true, beq_iff_eq] at hcond
    have hxstat : x.status = "PENDING" ∨ x.status = "STARTED" := by tauto
    rcases hxstat with h1 | h1
    · exact hp h1
    · exact hs h1
  unfold Pipeline_delete runScope
  cases hd : DeletePipeline p q (TwoPhaseExecutor.init db) with
  | error e => simpa using hr
  | ok tpe' =>
    have := (deletePipeline_ok_spec p q db tpe' hd).2.2.2 r hr hsel
    simpa using this

/-- Witness for C9: the SUCCESS run r1 survives the deletion of its pipeline's
pending run r2. -/
theorem deletePipeline_preserves_terminal_runs_witness :
    { uuid := "r1", project_uuid := "p", pipeline_uuid := "pl",
      status := "SUCCESS" : InteractivePipelineRun } ∈
      (Pipeline_delete "p" "pl" db9).db.interactive_runs :=
  deletePipeline_preserves_terminal_runs "p" "pl" db9
    { uuid := "r1", project_uuid := "p", pipeline_uuid := "pl",
      status := "SUCCESS" }
    (by decide) (by decide) (by decide) (by decide)

/-- C10: an update-pipeline request whose identifiers match no stored pipeline
still commits and returns status 200 with the success message; matching zero
rows is not an error. -/
theorem put_zero_matches_commits_success (p q : String)
    (upd : PipelineUpdateRequest) (db : DB)
    (h : ∀ row ∈ db.pipelines, ¬(row.project_uuid = p ∧ row.uuid = q)) :
    Pipeline_put p q upd db =
      (db, [TxnEvent.commit],
        { message := "Pipeline was updated successfully.", status := 200 }) := by
  have hmap : (db.pipelines.map fun row =>
      if row.project_uuid == p && row.uuid == q then applyUpdate upd row
      else row) = db.pipelines := by
    have h1 : ∀ row ∈ db.pipelines,
        (if row.project_uuid == p && row.uuid == q then applyUpdate upd row
        else row) = row := by
      intro row hrow
      have h2 := h row hrow
      have h3 : (row.project_uuid == p && row.uuid == q) = false := by
        rw [Bool.eq_false_iff]
        intro hcontra
        simp only [Bool.and_eq_true, beq_iff_eq] at hcontra
        exact h2 hcontra
      simp [h3]
    rw [List.map_congr_left h1, List.map_id']
  unfold Pipeline_put
  rw [hmap]

/-- Witness for C10: updating a pipeline absent from the store commits and
reports success. -/
theorem put_zero_matches_commits_success_witness :
    Pipeline_put "nope" "nope" { env_variables := none } dbA =
      (dbA, [TxnEvent.commit],
        { message := "Pipeline was updated successfully.", status := 200 }) :=
  put_zero_matches_commits_success "nope" "nope" { env_variables := none } dbA
    (by decide)
